import Mathlib

/-!
Shallow embedding of `src/SpinCameraControls.ts` (class `SpinCameraControls`),
a 360-degree first-person spin controller for a perspective camera.

The controller state (`ControlsState`) mirrors the class fields; each private
event handler (`_onWheel`, `_onMouseDown`, `_onMouseMove`, `_onMouseUp`,
`_onTouchStart`, `_onTouchMove`, `_onTouchEnd`, `_updateCameraRotation`) is a
pure function from the controller state (plus event payload) to the new state
together with the list of dispatched events.  The camera proxy is modelled by
`Camera`: its `direction` field is what `getWorldDirection` reads, `lookAt`
re-points it and records the requested target, `updateProjectionMatrix` bumps
a counter.  JavaScript numbers are modelled as real numbers.
-/

set_option autoImplicit false

open Real

/-- A 3-component vector, mirroring `THREE.Vector3` as used by the source. -/
structure Vec3 where
  x : ℝ
  y : ℝ
  z : ℝ

/-- Componentwise addition, mirroring `Vector3.add`. -/
noncomputable def Vec3.add (a b : Vec3) : Vec3 :=
  ⟨a.x + b.x, a.y + b.y, a.z + b.z⟩

/-- Componentwise subtraction, mirroring `Vector3.sub`. -/
noncomputable def Vec3.sub (a b : Vec3) : Vec3 :=
  ⟨a.x - b.x, a.y - b.y, a.z - b.z⟩

/-- Euclidean length, mirroring `Vector3.length`. -/
noncomputable def Vec3.length (v : Vec3) : ℝ :=
  Real.sqrt (v.x ^ 2 + v.y ^ 2 + v.z ^ 2)

/-- Normalization, mirroring `Vector3.normalize` (three.js divides by
`length || 1`, so the zero vector is left unchanged). -/
noncomputable def Vec3.normalize (v : Vec3) : Vec3 :=
  ⟨v.x / (if v.length = 0 then 1 else v.length),
   v.y / (if v.length = 0 then 1 else v.length),
   v.z / (if v.length = 0 then 1 else v.length)⟩

/-- A 2D screen coordinate (`clientX`/`clientY` of a mouse or touch point). -/
structure Pointer where
  x : ℝ
  y : ℝ

/-- The slice of `THREE.PerspectiveCamera` the controller interacts with:
world position, current world-facing direction (read by `getWorldDirection`),
field of view, a counter of `updateProjectionMatrix` calls, and the last
`lookAt` target (to observe the look-at request itself). -/
structure Camera where
  position : Vec3
  direction : Vec3
  fov : ℝ
  projectionUpdates : ℕ
  lastLookAt : Option Vec3

/-- `camera.lookAt(target)`: the camera is re-oriented so that its world
direction points from `position` toward `target`; we also record the target. -/
noncomputable def Camera.lookAt (c : Camera) (target : Vec3) : Camera :=
  { c with direction := Vec3.normalize (Vec3.sub target c.position),
           lastLookAt := some target }

/-- `camera.updateProjectionMatrix()`: the projection recompute, counted. -/
def Camera.updateProjectionMatrix (c : Camera) : Camera :=
  { c with projectionUpdates := c.projectionUpdates + 1 }

/-- `type EnabledMouseActions = THREE.MOUSE.ROTATE`: the only mouse action
value the source's types admit. -/
inductive MouseAction where
  | ROTATE
deriving DecidableEq

/-- `type EnabledTouchActions = THREE.TOUCH.ROTATE`: the only touch action
value the source's types admit. -/
inductive TouchAction where
  | ROTATE
deriving DecidableEq

/-- The three event objects the controller dispatches: `startEvent`,
`changeEvent` and `endEvent`. -/
inductive SpinEvent where
  | startEvent
  | changeEvent
  | endEvent
deriving DecidableEq

/-- The fields of class `SpinCameraControls`: the camera, the public
configuration (`rotateSensitivity`, `enableZoom`, `zoomSensitivity`,
`mouseButtons`, `touches`) and the private state (`_yaw`, `_pitch`,
`_minFov`, `_maxFov`, `_isDragging`, `_previousMousePosition`). -/
structure ControlsState where
  camera : Camera
  rotateSensitivity : ℝ
  enableZoom : Bool
  zoomSensitivity : ℝ
  mouseButtonsLEFT : Option MouseAction
  mouseButtonsRIGHT : Option MouseAction
  touchesONE : Option TouchAction
  touchesTWO : Option TouchAction
  yaw : ℝ
  pitch : ℝ
  minFov : ℝ
  maxFov : ℝ
  isDragging : Bool
  previousMousePosition : Pointer

/-- `THREE.MathUtils.clamp(value, min, max) = Math.max(min, Math.min(max, value))`. -/
noncomputable def clampR (value lo hi : ℝ) : ℝ :=
  max lo (min hi value)

/-- JavaScript `Math.atan2(y, x)`: the angle of the point `(x, y)` in
`(-pi, pi]`, by quadrant case analysis on the signs of `x` and `y`. -/
noncomputable def atan2 (y x : ℝ) : ℝ :=
  if 0 < x then Real.arctan (y / x)
  else if x < 0 then
    (if 0 ≤ y then Real.arctan (y / x) + Real.pi else Real.arctan (y / x) - Real.pi)
  else
    (if 0 < y then Real.pi / 2 else if y < 0 then -(Real.pi / 2) else 0)

/-- The `switch (e.button)` in `_onMouseDown`: button 0 resolves to
`mouseButtons.LEFT`, button 2 to `mouseButtons.RIGHT`, anything else to
`undefined`. -/
def resolveMouseAction (s : ControlsState) (button : ℕ) : Option MouseAction :=
  match button with
  | 0 => s.mouseButtonsLEFT
  | 2 => s.mouseButtonsRIGHT
  | _ => none

/-- `_updateCameraRotation()`: builds the unit direction from the pitch/yaw
pair, adds the camera position to obtain the look-at target, calls
`camera.lookAt(target)` and dispatches `changeEvent`. -/
noncomputable def _updateCameraRotation (s : ControlsState) :
    ControlsState × List SpinEvent :=
  ({ s with camera := Camera.lookAt s.camera (Vec3.add
      ⟨Real.cos s.pitch * Real.sin s.yaw,
       Real.sin s.pitch,
       Real.cos s.pitch * Real.cos s.yaw⟩
      s.camera.position) },
   [SpinEvent.changeEvent])

/-- `_onWheel(e)`: returns immediately when zoom is disabled; otherwise calls
`e.preventDefault()` (third component `true`), adds `deltaY * zoomSensitivity`
to the fov, clamps it into `[_minFov, _maxFov]` and recomputes the projection.
No event is dispatched. -/
noncomputable def _onWheel (s : ControlsState) (deltaY : ℝ) :
    ControlsState × List SpinEvent × Bool :=
  if s.enableZoom = false then (s, [], false)
  else
    let cam2 : Camera :=
      { s.camera with
          fov := clampR (s.camera.fov + deltaY * s.zoomSensitivity) s.minFov s.maxFov }
    ({ s with camera := Camera.updateProjectionMatrix cam2 }, [], true)

/-- `_onMouseDown(e)`: resolves the pressed button through `mouseButtons`,
returning untouched unless the result is `ROTATE`; otherwise opens the drag,
re-derives yaw/pitch from the camera's current world direction
(`yaw = atan2(d.x, d.z)`, `pitch = asin(d.y)`), records the press position and
dispatches `startEvent`. -/
noncomputable def _onMouseDown (s : ControlsState) (button : ℕ)
    (clientX clientY : ℝ) : ControlsState × List SpinEvent :=
  match resolveMouseAction s button with
  | some MouseAction.ROTATE =>
      ({ s with
          isDragging := true,
          yaw := atan2 s.camera.direction.x s.camera.direction.z,
          pitch := Real.arcsin s.camera.direction.y,
          previousMousePosition := ⟨clientX, clientY⟩ },
       [SpinEvent.startEvent])
  | _ => (s, [])

/-- `_onMouseMove(e)`: returns untouched unless dragging; otherwise subtracts
`dx * rotateSensitivity` from yaw and `dy * rotateSensitivity` from pitch,
clamps pitch into `[-pi/2, pi/2]`, runs `_updateCameraRotation` (which
dispatches `changeEvent`) and stores the new previous position. -/
noncomputable def _onMouseMove (s : ControlsState) (clientX clientY : ℝ) :
    ControlsState × List SpinEvent :=
  if s.isDragging = false then (s, [])
  else
    let r := _updateCameraRotation
      { s with
          yaw := s.yaw - (clientX - s.previousMousePosition.x) * s.rotateSensitivity,
          pitch := max (-(Real.pi / 2)) (min (Real.pi / 2)
            (s.pitch - (clientY - s.previousMousePosition.y) * s.rotateSensitivity)) }
    ({ r.1 with previousMousePosition := ⟨clientX, clientY⟩ }, r.2)

/-- `_onMouseUp()` (also bound to `mouseleave`): clears the dragging flag and
dispatches `endEvent`, with no guard on the flag. -/
def _onMouseUp (s : ControlsState) : ControlsState × List SpinEvent :=
  ({ s with isDragging := false }, [SpinEvent.endEvent])

/-- `_onTouchStart(e)`: when exactly one touch is present its coordinate is
stored as the previous position; `startEvent` is dispatched unconditionally.
The `touches` binding configuration and `_isDragging` are not consulted. -/
def _onTouchStart (s : ControlsState) (touches : List Pointer) :
    ControlsState × List SpinEvent :=
  match touches with
  | [t] => ({ s with previousMousePosition := t }, [SpinEvent.startEvent])
  | _ => (s, [SpinEvent.startEvent])

/-- `_onTouchMove(e)`: when exactly one touch is present, performs the same
yaw/pitch update, pitch clamp, camera re-orientation and previous-position
update as `_onMouseMove` — but with no check of `_isDragging`.  With any
other number of touches it does nothing. -/
noncomputable def _onTouchMove (s : ControlsState) (touches : List Pointer) :
    ControlsState × List SpinEvent :=
  match touches with
  | [t] =>
      let r := _updateCameraRotation
        { s with
            yaw := s.yaw - (t.x - s.previousMousePosition.x) * s.rotateSensitivity,
            pitch := max (-(Real.pi / 2)) (min (Real.pi / 2)
              (s.pitch - (t.y - s.previousMousePosition.y) * s.rotateSensitivity)) }
      ({ r.1 with previousMousePosition := t }, r.2)
  | _ => (s, [])

/-- `_onTouchEnd()`: dispatches `endEvent`; the state (including the
`_isDragging` flag) is left untouched. -/
def _onTouchEnd (s : ControlsState) : ControlsState × List SpinEvent :=
  (s, [SpinEvent.endEvent])

/-- One raw input event, as delivered by the DOM element the controller is
connected to. -/
inductive Op where
  | mouseDown (button : ℕ) (x y : ℝ)
  | mouseMove (x y : ℝ)
  | mouseUp
  | touchStart (touches : List Pointer)
  | touchMove (touches : List Pointer)
  | touchEnd
  | wheel (deltaY : ℝ)

/-- Dispatching one raw input event to its handler. -/
noncomputable def step (s : ControlsState) : Op → ControlsState × List SpinEvent
  | Op.mouseDown b x y => _onMouseDown s b x y
  | Op.mouseMove x y => _onMouseMove s x y
  | Op.mouseUp => _onMouseUp s
  | Op.touchStart ts => _onTouchStart s ts
  | Op.touchMove ts => _onTouchMove s ts
  | Op.touchEnd => _onTouchEnd s
  | Op.wheel d => ((_onWheel s d).1, (_onWheel s d).2.1)

/-- The state after one raw input event. -/
noncomputable def stepState (s : ControlsState) (op : Op) : ControlsState :=
  (step s op).1

/-- The state after a sequence of raw input events. -/
noncomputable def runOps (s : ControlsState) (ops : List Op) : ControlsState :=
  ops.foldl stepState s

/-- The field initializers of `SpinCameraControls` (constructor defaults):
`rotateSensitivity = 0.005`, `enableZoom = true`, `zoomSensitivity = 0.01`,
`mouseButtons = { LEFT: ROTATE }`, `touches = { ONE: ROTATE }`, `_yaw = 0`,
`_pitch = 0`, `_minFov = 30`, `_maxFov = 90`, `_isDragging = false`,
`_previousMousePosition = { x: 0, y: 0 }`. -/
noncomputable def initialState (camera : Camera) : ControlsState :=
  { camera := camera
    rotateSensitivity := 0.005
    enableZoom := true
    zoomSensitivity := 0.01
    mouseButtonsLEFT := some MouseAction.ROTATE
    mouseButtonsRIGHT := none
    touchesONE := some TouchAction.ROTATE
    touchesTWO := none
    yaw := 0
    pitch := 0
    minFov := 30
    maxFov := 90
    isDragging := false
    previousMousePosition := ⟨0, 0⟩ }

/-- The pitch invariant of the spec: the stored pitch lies in
`[-pi/2, pi/2]`. -/
def pitchInRange (s : ControlsState) : Prop :=
  s.pitch ∈ Set.Icc (-(Real.pi / 2)) (Real.pi / 2)

/-- A concrete camera at the origin facing the negative z-axis. -/
noncomputable def someCamera : Camera :=
  { position := ⟨0, 0, 0⟩
    direction := ⟨0, 0, -1⟩
    fov := 50
    projectionUpdates := 0
    lastLookAt := none }

/-- The initial controller state on `someCamera`, with the drag flag raised
(as after a qualifying mouse press). -/
noncomputable def dragState : ControlsState :=
  { initialState someCamera with isDragging := true }

/-- The pitch clamp `Math.max(-pi/2, Math.min(pi/2, p))` always lands in
`[-pi/2, pi/2]`. -/
lemma clamp_pitch_mem (p : ℝ) :
    max (-(Real.pi / 2)) (min (Real.pi / 2) p) ∈
      Set.Icc (-(Real.pi / 2)) (Real.pi / 2) := by
  constructor
  · exact le_max_left _ _
  · apply max_le
    · linarith [Real.pi_pos]
    · exact min_le_left _ _

/-- Every single raw input event preserves the pitch invariant. -/
lemma pitchInRange_step (s : ControlsState) (op : Op) (h : pitchInRange s) :
    pitchInRange (stepState s op) := by
  cases op with
  | mouseDown b x y =>
      rcases hr : resolveMouseAction s b with _ | a
      · simpa [stepState, step, _onMouseDown, hr] using h
      · cases a
        simpa [stepState, step, _onMouseDown, hr, pitchInRange] using
          Real.arcsin_mem_Icc s.camera.direction.y
  | mouseMove x y =>
      by_cases hd : s.isDragging = false
      · simpa [stepState, step, _onMouseMove, hd] using h
      · simpa [stepState, step, _onMouseMove, hd, _updateCameraRotation,
          pitchInRange] using
          clamp_pitch_mem (s.pitch - (y - s.previousMousePosition.y) * s.rotateSensitivity)
  | mouseUp => simpa [stepState, step, _onMouseUp, pitchInRange] using h
  | touchStart ts =>
      match ts with
      | [] => simpa [stepState, step, _onTouchStart] using h
      | [t] => simpa [stepState, step, _onTouchStart, pitchInRange] using h
      | t1 :: t2 :: r => simpa [stepState, step, _onTouchStart] using h
  | touchMove ts =>
      match ts with
      | [] => simpa [stepState, step, _onTouchMove] using h
      | [t] =>
          simpa [stepState, step, _onTouchMove, _updateCameraRotation,
            pitchInRange] using
            clamp_pitch_mem (s.pitch - (t.y - s.previousMousePosition.y) * s.rotateSensitivity)
      | t1 :: t2 :: r => simpa [stepState, step, _onTouchMove] using h
  | touchEnd => simpa [stepState, step, _onTouchEnd, pitchInRange] using h
  | wheel d =>
      by_cases hz : s.enableZoom = false
      · simpa [stepState, step, _onWheel, hz] using h
      · simpa [stepState, step, _onWheel, hz, pitchInRange,
          Camera.updateProjectionMatrix] using h

/-- The pitch invariant is preserved by every sequence of raw input events. -/
lemma pitchInRange_runOps (s : ControlsState) (ops : List Op)
    (h : pitchInRange s) : pitchInRange (runOps s ops) := by
  induction ops generalizing s with
  | nil => simpa [runOps] using h
  | cons op rest ih =>
      rw [runOps, List.foldl_cons]
      exact ih (stepState s op) (pitchInRange_step s op h)

/-- The initial controller state satisfies the pitch invariant. -/
lemma pitchInRange_initial (c : Camera) : pitchInRange (initialState c) := by
  simp only [pitchInRange, initialState, Set.mem_Icc]
  constructor
  · linarith [Real.pi_pos]
  · linarith [Real.pi_pos]

/-- C1: for every sequence of raw input events, after each event the stored
pitch lies in `[-pi/2, pi/2]` inclusive (every state with pitch in range
reaches only states with pitch in range, in particular every prefix of a run
from the initial state), while yaw is never clamped or re-normalized: a move
event during a drag stores exactly the raw value
`yaw - dx * rotateSensitivity`. -/
theorem pitch_always_clamped_yaw_never_clamped
    (s t : ControlsState) (ops : List Op) (x y : ℝ) (p : Pointer)
    (h : pitchInRange s) (ht : t.isDragging = true) :
    pitchInRange (runOps s ops) ∧
    (stepState t (Op.mouseMove x y)).yaw
      = t.yaw - (x - t.previousMousePosition.x) * t.rotateSensitivity ∧
    (stepState t (Op.touchMove [p])).yaw
      = t.yaw - (p.x - t.previousMousePosition.x) * t.rotateSensitivity := by
  refine ⟨pitchInRange_runOps s ops h, ?_, ?_⟩
  · simp [stepState, step, _onMouseMove, ht, _updateCameraRotation]
  · simp [stepState, step, _onTouchMove, _updateCameraRotation]

/-- Witness for C1 at the initial state on `someCamera` and the raised-flag
state `dragState`, with the event sequence `[wheel 3]` and concrete pointers. -/
theorem pitch_always_clamped_yaw_never_clamped_witness :
    (pitchInRange (initialState someCamera) ∧ dragState.isDragging = true) ∧
    (pitchInRange (runOps (initialState someCamera) [Op.wheel 3]) ∧
     (stepState dragState (Op.mouseMove 1 2)).yaw
       = dragState.yaw - (1 - dragState.previousMousePosition.x) * dragState.rotateSensitivity ∧
     (stepState dragState (Op.touchMove [⟨3, 4⟩])).yaw
       = dragState.yaw - ((Pointer.mk 3 4).x - dragState.previousMousePosition.x)
           * dragState.rotateSensitivity) :=
  ⟨⟨pitchInRange_initial someCamera, rfl⟩,
   pitch_always_clamped_yaw_never_clamped (initialState someCamera) dragState
     [Op.wheel 3] 1 2 ⟨3, 4⟩ (pitchInRange_initial someCamera) rfl⟩

/-- C2: during an active drag, a move event with pointer `p` (mouse, or
single-finger touch) updates yaw to `yaw - dx * rotateSensitivity`, pitch to
the clamp of `pitch - dy * rotateSensitivity` into `[-pi/2, pi/2]`, records
a look-at request for `position + (cos pitch * sin yaw, sin pitch,
cos pitch * cos yaw)` (with the updated angles), emits exactly one change
notification, and stores `p` as the previous pointer. -/
theorem move_updates_yaw_pitch_lookat
    (s : ControlsState) (x y : ℝ) (p : Pointer) (h : s.isDragging = true) :
    (_onMouseMove s x y).1.yaw
      = s.yaw - (x - s.previousMousePosition.x) * s.rotateSensitivity ∧
    (_onMouseMove s x y).1.pitch
      = max (-(Real.pi / 2)) (min (Real.pi / 2)
          (s.pitch - (y - s.previousMousePosition.y) * s.rotateSensitivity)) ∧
    (_onMouseMove s x y).1.camera.lastLookAt = some (Vec3.add
      ⟨Real.cos (_onMouseMove s x y).1.pitch * Real.sin (_onMouseMove s x y).1.yaw,
       Real.sin (_onMouseMove s x y).1.pitch,
       Real.cos (_onMouseMove s x y).1.pitch * Real.cos (_onMouseMove s x y).1.yaw⟩
      s.camera.position) ∧
    (_onMouseMove s x y).2 = [SpinEvent.changeEvent] ∧
    (_onMouseMove s x y).1.previousMousePosition = ⟨x, y⟩ ∧
    (_onTouchMove s [p]).1.yaw
      = s.yaw - (p.x - s.previousMousePosition.x) * s.rotateSensitivity ∧
    (_onTouchMove s [p]).1.pitch
      = max (-(Real.pi / 2)) (min (Real.pi / 2)
          (s.pitch - (p.y - s.previousMousePosition.y) * s.rotateSensitivity)) ∧
    (_onTouchMove s [p]).1.camera.lastLookAt = some (Vec3.add
      ⟨Real.cos (_onTouchMove s [p]).1.pitch * Real.sin (_onTouchMove s [p]).1.yaw,
       Real.sin (_onTouchMove s [p]).1.pitch,
       Real.cos (_onTouchMove s [p]).1.pitch * Real.cos (_onTouchMove s [p]).1.yaw⟩
      s.camera.position) ∧
    (_onTouchMove s [p]).2 = [SpinEvent.changeEvent] ∧
    (_onTouchMove s [p]).1.previousMousePosition = p := by
  simp [_onMouseMove, _onTouchMove, _updateCameraRotation, Camera.lookAt, h]

/-- Witness for C2 at the concrete dragging state `dragState`, moving the
mouse to `(1, 2)` and the single touch to `(3, 4)`. -/
theorem move_updates_yaw_pitch_lookat_witness :
    dragState.isDragging = true ∧
    ((_onMouseMove dragState 1 2).1.yaw
       = dragState.yaw - (1 - dragState.previousMousePosition.x) * dragState.rotateSensitivity ∧
     (_onMouseMove dragState 1 2).1.pitch
       = max (-(Real.pi / 2)) (min (Real.pi / 2)
           (dragState.pitch - (2 - dragState.previousMousePosition.y) * dragState.rotateSensitivity)) ∧
     (_onMouseMove dragState 1 2).1.camera.lastLookAt = some (Vec3.add
       ⟨Real.cos (_onMouseMove dragState 1 2).1.pitch * Real.sin (_onMouseMove dragState 1 2).1.yaw,
        Real.sin (_onMouseMove dragState 1 2).1.pitch,
        Real.cos (_onMouseMove dragState 1 2).1.pitch * Real.cos (_onMouseMove dragState 1 2).1.yaw⟩
       dragState.camera.position) ∧
     (_onMouseMove dragState 1 2).2 = [SpinEvent.changeEvent] ∧
     (_onMouseMove dragState 1 2).1.previousMousePosition = ⟨1, 2⟩ ∧
     (_onTouchMove dragState [⟨3, 4⟩]).1.yaw
       = dragState.yaw - ((Pointer.mk 3 4).x - dragState.previousMousePosition.x)
           * dragState.rotateSensitivity ∧
     (_onTouchMove dragState [⟨3, 4⟩]).1.pitch
       = max (-(Real.pi / 2)) (min (Real.pi / 2)
           (dragState.pitch - ((Pointer.mk 3 4).y - dragState.previousMousePosition.y)
             * dragState.rotateSensitivity)) ∧
     (_onTouchMove dragState [⟨3, 4⟩]).1.camera.lastLookAt = some (Vec3.add
       ⟨Real.cos (_onTouchMove dragState [⟨3, 4⟩]).1.pitch
           * Real.sin (_onTouchMove dragState [⟨3, 4⟩]).1.yaw,
        Real.sin (_onTouchMove dragState [⟨3, 4⟩]).1.pitch,
        Real.cos (_onTouchMove dragState [⟨3, 4⟩]).1.pitch
           * Real.cos (_onTouchMove dragState [⟨3, 4⟩]).1.yaw⟩
       dragState.camera.position) ∧
     (_onTouchMove dragState [⟨3, 4⟩]).2 = [SpinEvent.changeEvent] ∧
     (_onTouchMove dragState [⟨3, 4⟩]).1.previousMousePosition = ⟨3, 4⟩) :=
  ⟨rfl, move_updates_yaw_pitch_lookat dragState 1 2 ⟨3, 4⟩ rfl⟩

/-- `Math.atan2(0, -1) = pi`. -/
lemma atan2_zero_neg_one : atan2 0 (-1) = Real.pi := by
  rw [atan2, if_neg (by norm_num), if_pos (by norm_num), if_pos le_rfl]
  norm_num

/-- C3: a qualifying mouse press (its button resolves to the rotate action)
sets `yaw = atan2(d.x, d.z)` and `pitch = asin(d.y)` from the camera's current
world direction `d`, records the press coordinate, raises the drag flag and
emits a start notification; for `d = (0, 0, -1)` the derived yaw is `pi` and
the derived pitch is `0`. -/
theorem mousedown_resync (s : ControlsState) (button : ℕ) (x y : ℝ)
    (h : resolveMouseAction s button = some MouseAction.ROTATE) :
    (_onMouseDown s button x y).1.yaw
      = atan2 s.camera.direction.x s.camera.direction.z ∧
    (_onMouseDown s button x y).1.pitch = Real.arcsin s.camera.direction.y ∧
    (_onMouseDown s button x y).1.previousMousePosition = ⟨x, y⟩ ∧
    (_onMouseDown s button x y).1.isDragging = true ∧
    (_onMouseDown s button x y).2 = [SpinEvent.startEvent] ∧
    (s.camera.direction = ⟨0, 0, -1⟩ →
      (_onMouseDown s button x y).1.yaw = Real.pi ∧
      (_onMouseDown s button x y).1.pitch = 0) := by
  simp only [_onMouseDown, h]
  refine ⟨trivial, trivial, trivial, trivial, trivial, fun hd => ⟨?_, ?_⟩⟩
  · rw [hd]
    simpa using atan2_zero_neg_one
  · rw [hd]
    simp

/-- Witness for C3 on the initial state over `someCamera` (facing `-z`),
pressing button 0 at `(5, 7)`. -/
theorem mousedown_resync_witness :
    resolveMouseAction (initialState someCamera) 0 = some MouseAction.ROTATE ∧
    ((_onMouseDown (initialState someCamera) 0 5 7).1.yaw = Real.pi ∧
     (_onMouseDown (initialState someCamera) 0 5 7).1.pitch = 0) :=
  ⟨rfl, (mousedown_resync (initialState someCamera) 0 5 7 rfl).2.2.2.2.2 rfl⟩

/-- C4 counterexample: a single-finger touch move delivered while no drag
session is active (the freshly constructed controller) still changes yaw and
still emits a change notification: the touch-move handler never consults the
drag flag. -/
theorem idle_touchmove_not_noop :
    (initialState someCamera).isDragging = false ∧
    (_onTouchMove (initialState someCamera) [⟨1, 0⟩]).1.yaw
      ≠ (initialState someCamera).yaw ∧
    (_onTouchMove (initialState someCamera) [⟨1, 0⟩]).2
      = [SpinEvent.changeEvent] := by
  refine ⟨rfl, ?_, ?_⟩
  · norm_num [_onTouchMove, _updateCameraRotation, initialState]
  · simp [_onTouchMove, _updateCameraRotation]

/-- C4 amended: a mouse move delivered while no drag session is active changes
nothing and emits nothing; a touch move, however, does not consult the drag
flag: with exactly one touch present it updates yaw and emits change even
while no session is active. -/
theorem idle_mousemove_noop (s : ControlsState) (x y : ℝ) (p : Pointer)
    (h : s.isDragging = false) :
    _onMouseMove s x y = (s, []) ∧
    (_onTouchMove s [p]).1.yaw
      = s.yaw - (p.x - s.previousMousePosition.x) * s.rotateSensitivity ∧
    (_onTouchMove s [p]).2 = [SpinEvent.changeEvent] := by
  refine ⟨?_, ?_, ?_⟩
  · simp [_onMouseMove, h]
  · simp [_onTouchMove, _updateCameraRotation]
  · simp [_onTouchMove, _updateCameraRotation]

/-- Witness for the amended C4 at the freshly constructed controller. -/
theorem idle_mousemove_noop_witness :
    (initialState someCamera).isDragging = false ∧
    (_onMouseMove (initialState someCamera) 1 2 = (initialState someCamera, []) ∧
     (_onTouchMove (initialState someCamera) [⟨3, 4⟩]).1.yaw
       = (initialState someCamera).yaw
         - ((Pointer.mk 3 4).x - (initialState someCamera).previousMousePosition.x)
           * (initialState someCamera).rotateSensitivity ∧
     (_onTouchMove (initialState someCamera) [⟨3, 4⟩]).2 = [SpinEvent.changeEvent]) :=
  ⟨rfl, idle_mousemove_noop (initialState someCamera) 1 2 ⟨3, 4⟩ rfl⟩

/-- A controller state whose yaw was set externally to `1` while the camera
still faces the negative z-axis. -/
noncomputable def extState : ControlsState :=
  { initialState someCamera with yaw := 1 }

/-- C5 counterexample: a first-finger touch-start leaves yaw and pitch exactly
as they were, even though decomposing the camera's current world direction
`(0, 0, -1)` would give yaw `= pi ≠ 1`: touch gestures do not re-initialize
the angles. -/
theorem touchstart_no_resync :
    (_onTouchStart extState [⟨2, 3⟩]).1.yaw = 1 ∧
    (_onTouchStart extState [⟨2, 3⟩]).1.pitch = 0 ∧
    atan2 extState.camera.direction.x extState.camera.direction.z ≠ 1 := by
  refine ⟨rfl, rfl, ?_⟩
  have h1 : atan2 extState.camera.direction.x extState.camera.direction.z
      = Real.pi := by
    simp only [extState, initialState, someCamera]
    exact atan2_zero_neg_one
  rw [h1]
  intro hc
  have h3 := Real.pi_gt_three
  linarith

/-- C5 amended: only a qualifying mouse press re-initializes yaw and pitch by
decomposing the camera's current world direction; a first-finger touch-start
merely records the touch coordinate and emits start, leaving yaw and pitch
untouched, and release/touch-end leave them untouched as well. -/
theorem gesture_resync_mouse_only (s : ControlsState) (button : ℕ)
    (x y : ℝ) (t : Pointer)
    (h : resolveMouseAction s button = some MouseAction.ROTATE) :
    (_onMouseDown s button x y).1.yaw
      = atan2 s.camera.direction.x s.camera.direction.z ∧
    (_onMouseDown s button x y).1.pitch = Real.arcsin s.camera.direction.y ∧
    (_onTouchStart s [t]).1.yaw = s.yaw ∧
    (_onTouchStart s [t]).1.pitch = s.pitch ∧
    (_onTouchStart s [t]).1.previousMousePosition = t ∧
    (_onTouchStart s [t]).2 = [SpinEvent.startEvent] ∧
    (_onMouseUp s).1.yaw = s.yaw ∧
    (_onMouseUp s).1.pitch = s.pitch ∧
    (_onTouchEnd s).1.yaw = s.yaw ∧
    (_onTouchEnd s).1.pitch = s.pitch := by
  simp [_onMouseDown, h, _onTouchStart, _onMouseUp, _onTouchEnd]

/-- Witness for the amended C5 on the freshly constructed controller. -/
theorem gesture_resync_mouse_only_witness :
    resolveMouseAction (initialState someCamera) 0 = some MouseAction.ROTATE ∧
    ((_onTouchStart (initialState someCamera) [⟨7, 8⟩]).1.yaw
       = (initialState someCamera).yaw ∧
     (_onTouchStart (initialState someCamera) [⟨7, 8⟩]).1.pitch
       = (initialState someCamera).pitch) :=
  ⟨rfl,
   ⟨(gesture_resync_mouse_only (initialState someCamera) 0 5 6 ⟨7, 8⟩ rfl).2.2.1,
    (gesture_resync_mouse_only (initialState someCamera) 0 5 6 ⟨7, 8⟩ rfl).2.2.2.1⟩⟩

/-- A controller state with no touch action bound at all. -/
noncomputable def noBindState : ControlsState :=
  { initialState someCamera with touchesONE := none, touchesTWO := none }

/-- C6 counterexample: with no touch action bound, a single-finger touch-start
is not inert: it still records the touch coordinate as the previous pointer
and still emits a start notification. -/
theorem touchstart_ignores_bindings :
    noBindState.touchesONE = none ∧
    noBindState.touchesTWO = none ∧
    (_onTouchStart noBindState [⟨4, 5⟩]).2 = [SpinEvent.startEvent] ∧
    (_onTouchStart noBindState [⟨4, 5⟩]).1.previousMousePosition = ⟨4, 5⟩ :=
  ⟨rfl, rfl, rfl, rfl⟩

/-- C6 amended: a mouse press whose button does not resolve to the rotate
action is silently inert (no session, no state change, no notification);
touch-start, however, never consults the touch binding configuration: it
emits a start notification regardless of the configured bindings. -/
theorem non_rotate_press_inert (s : ControlsState) (button : ℕ) (x y : ℝ)
    (ts : List Pointer)
    (h : resolveMouseAction s button ≠ some MouseAction.ROTATE) :
    _onMouseDown s button x y = (s, []) ∧
    (_onTouchStart s ts).2 = [SpinEvent.startEvent] := by
  constructor
  · rcases hr : resolveMouseAction s button with _ | a
    · simp [_onMouseDown, hr]
    · cases a
      exact absurd hr h
  · cases ts with
    | nil => rfl
    | cons t1 rest =>
      cases rest with
      | nil => rfl
      | cons t2 r => rfl

/-- Witness for the amended C6: button 1 resolves to no action under the
default bindings, and a bare touch-start still emits start. -/
theorem non_rotate_press_inert_witness :
    resolveMouseAction (initialState someCamera) 1 ≠ some MouseAction.ROTATE ∧
    (_onMouseDown (initialState someCamera) 1 5 6 = (initialState someCamera, []) ∧
     (_onTouchStart (initialState someCamera) []).2 = [SpinEvent.startEvent]) :=
  ⟨by decide, non_rotate_press_inert (initialState someCamera) 1 5 6 [] (by decide)⟩

/-- C7 counterexample: touch-end emits the end notification but leaves the
drag flag raised: it does not set the drag session inactive. -/
theorem touchend_keeps_flag :
    dragState.isDragging = true ∧
    (_onTouchEnd dragState).1.isDragging = true ∧
    (_onTouchEnd dragState).2 = [SpinEvent.endEvent] :=
  ⟨rfl, rfl, rfl⟩

/-- C7 amended: release/leave unconditionally clears the drag flag and emits
an end notification, even when no session was active; touch-end also emits
end unconditionally, but leaves the entire state — including the drag flag —
unchanged. -/
theorem release_end_emission (s : ControlsState) :
    (_onMouseUp s).1.isDragging = false ∧
    (_onMouseUp s).2 = [SpinEvent.endEvent] ∧
    (_onTouchEnd s).1 = s ∧
    (_onTouchEnd s).2 = [SpinEvent.endEvent] :=
  ⟨rfl, rfl, rfl, rfl⟩

/-- C8: with zoom enabled and the stored fov bounds `30` and `90`, a wheel
event with scroll delta `v` sets the fov to
`clamp(fov + v * zoomSensitivity, 30, 90)`, calls preventDefault, triggers
exactly one projection recompute and emits no notification; with
`zoomSensitivity = 0.01`, a delta of `10000` from any fov at least `30`
drives the fov to exactly `90`. -/
theorem wheel_zoom_clamps_fov (s : ControlsState) (v : ℝ)
    (hz : s.enableZoom = true) (hmin : s.minFov = 30) (hmax : s.maxFov = 90) :
    (_onWheel s v).1.camera.fov
      = clampR (s.camera.fov + v * s.zoomSensitivity) 30 90 ∧
    (_onWheel s v).1.camera.projectionUpdates = s.camera.projectionUpdates + 1 ∧
    (_onWheel s v).2.1 = [] ∧
    (_onWheel s v).2.2 = true ∧
    (s.zoomSensitivity = 0.01 → v = 10000 → 30 ≤ s.camera.fov →
      (_onWheel s v).1.camera.fov = 90) := by
  have hfov : (_onWheel s v).1.camera.fov
      = clampR (s.camera.fov + v * s.zoomSensitivity) s.minFov s.maxFov := by
    simp [_onWheel, hz, Camera.updateProjectionMatrix]
  refine ⟨?_, ?_, ?_, ?_, ?_⟩
  · rw [hfov, hmin, hmax]
  · simp [_onWheel, hz, Camera.updateProjectionMatrix]
  · simp [_onWheel, hz]
  · simp [_onWheel, hz]
  · intro hs hv hf
    rw [hfov, hmin, hmax, hs, hv, clampR]
    have h100 : (10000 : ℝ) * 0.01 = 100 := by norm_num
    rw [h100, min_eq_left (by linarith), max_eq_right (by norm_num)]

/-- Witness for C8 on the freshly constructed controller (fov `50`): the
delta `10000` drives the fov to exactly `90`. -/
theorem wheel_zoom_clamps_fov_witness :
    ((initialState someCamera).enableZoom = true ∧
     (initialState someCamera).minFov = 30 ∧
     (initialState someCamera).maxFov = 90 ∧
     (initialState someCamera).zoomSensitivity = 0.01 ∧
     (30 : ℝ) ≤ (initialState someCamera).camera.fov) ∧
    (_onWheel (initialState someCamera) 10000).1.camera.fov = 90 :=
  ⟨⟨rfl, rfl, rfl, rfl, by norm_num [initialState, someCamera]⟩,
   (wheel_zoom_clamps_fov (initialState someCamera) 10000 rfl rfl rfl).2.2.2.2
     rfl rfl (by norm_num [initialState, someCamera])⟩

/-- C9: a touch event reporting two or more simultaneous touch points changes
neither the tracked pointer nor yaw nor pitch: a multi-touch touch-start
leaves all three unchanged, and a multi-touch touch-move is a complete no-op. -/
theorem multitouch_isolated (s : ControlsState) (ts : List Pointer)
    (h : 2 ≤ ts.length) :
    (_onTouchStart s ts).1.previousMousePosition = s.previousMousePosition ∧
    (_onTouchStart s ts).1.yaw = s.yaw ∧
    (_onTouchStart s ts).1.pitch = s.pitch ∧
    _onTouchMove s ts = (s, []) := by
  cases ts with
  | nil =>
      simp only [List.length_nil] at h
      omega
  | cons t1 rest =>
      cases rest with
      | nil =>
          simp only [List.length_cons, List.length_nil] at h
          omega
      | cons t2 r => exact ⟨rfl, rfl, rfl, rfl⟩

/-- Witness for C9 on the dragging state with two simultaneous touches. -/
theorem multitouch_isolated_witness :
    2 ≤ ([⟨0, 0⟩, ⟨1, 1⟩] : List Pointer).length ∧
    ((_onTouchStart dragState [⟨0, 0⟩, ⟨1, 1⟩]).1.previousMousePosition
       = dragState.previousMousePosition ∧
     (_onTouchStart dragState [⟨0, 0⟩, ⟨1, 1⟩]).1.yaw = dragState.yaw ∧
     (_onTouchStart dragState [⟨0, 0⟩, ⟨1, 1⟩]).1.pitch = dragState.pitch ∧
     _onTouchMove dragState [⟨0, 0⟩, ⟨1, 1⟩] = (dragState, [])) :=
  ⟨by simp, multitouch_isolated dragState [⟨0, 0⟩, ⟨1, 1⟩] (by simp)⟩

/-- C10: with zoom disabled, the wheel handler returns immediately: the whole
controller state — fov, projection counter, yaw, pitch, camera orientation —
is exactly unchanged, no notification is emitted, and preventDefault is not
called. -/
theorem wheel_disabled_noop (s : ControlsState) (v : ℝ)
    (h : s.enableZoom = false) :
    _onWheel s v = (s, [], false) := by
  simp [_onWheel, h]

/-- A controller state with zoom disabled. -/
noncomputable def zoomOffState : ControlsState :=
  { initialState someCamera with enableZoom := false }

/-- Witness for C10 on a controller with zoom disabled and delta `42`. -/
theorem wheel_disabled_noop_witness :
    zoomOffState.enableZoom = false ∧
    _onWheel zoomOffState 42 = (zoomOffState, [], false) :=
  ⟨rfl, wheel_disabled_noop zoomOffState 42 rfl⟩
